import Mathlib

/-
Verification development for the aineko-dream request/response correlation
bridge.  The definitions below are a shallow embedding of:

  * src/aineko_dream/nodes.py        (Prompt, LLMResponseFormatter, PromptResponder)
  * src/aineko_dream/api/main.py     (fetch_latest_message, wait_response, wait_and_post)

Conventions of the embedding:
  * Python dicts decoded from messages are association lists with string
    keys, first-match lookup and overwrite-in-place / append-on-new set,
    matching Python dict semantics (unique keys, insertion order).
  * Wall-clock time is an integer number of seconds (the unit in which the source measures its sleeps and intervals).  Each call that samples
    time.time gets the sampled instant as an explicit `now` argument;
    within one call the handful of time.time readings are modelled as one
    sampled instant.
  * In the polling loops of api/main.py, time advances only through the
    one-second time.sleep between iterations; fetches are instantaneous.
    Elapsed time since start_time after k sleeps is therefore k seconds.
  * A Python KeyError on a missing dict key is modelled by Option/none in
    the callee or a dedicated error outcome in the polling loops.
-/

/-- A decoded Python value appearing in pipeline messages: a string or a
number (timestamps).  Nothing in the verified claims needs deeper nesting. -/
inductive PyVal where
  | vstr : String → PyVal
  | vnum : ℤ → PyVal
deriving DecidableEq, Repr

/-- A decoded Python dict with string keys. -/
abbrev Dict := List (String × PyVal)

/-- Python read d[k]: first (unique) binding of key k, none models KeyError. -/
def dget (d : List (String × α)) (k : String) : Option α :=
  (d.find? (fun kv => kv.1 == k)).map (fun kv => kv.2)

/-- Python write d[k] = v: overwrite keeping the position when the key is
present, append when it is new. -/
def dset (d : List (String × α)) (k : String) (v : α) : List (String × α) :=
  if d.any (fun kv => kv.1 == k) then
    d.map (fun kv => if kv.1 == k then (k, v) else kv)
  else
    d ++ [(k, v)]

/-- The response store of PromptResponder: self.state, a dict from
request id to the recorded (timestamped) message dict. -/
abbrev Store := List (String × Dict)

/-- Reading the store at a request id (lookup by correlation id). -/
def lookup (st : Store) (rid : String) : Option Dict :=
  dget st rid

/-- The keep-condition of the cleanup dict comprehension in
PromptResponder.update_state: time.time() - v["timestamp"] <= cleanup_interval.
Every entry the node ever stores carries a numeric "timestamp" field (it is
set on the line before cleanup can run), so the wildcard case is unreachable
on reachable stores; in Python a missing stamp would raise there. -/
def entry_age_ok (now ttl : ℤ) (v : Dict) : Bool :=
  match dget v "timestamp" with
  | some (PyVal.vnum t) => decide (now - t ≤ ttl)
  | _ => false

/-- The eviction pass of PromptResponder.update_state: the dict
comprehension keeping exactly the entries whose age is at most the ttl. -/
def evict_expired (now ttl : ℤ) (st : Store) : Store :=
  st.filter (fun kv => entry_age_ok now ttl kv.2)

/-- Mutable node state of PromptResponder. -/
structure ResponderState where
  state : Store
  cleanup_interval : ℤ
  last_cleanup_time : ℤ
deriving DecidableEq, Repr

/-- PromptResponder._pre_loop_hook: empty store,
cleanup_interval = params.get("cleanup_interval", 100),
last_cleanup_time = time.time(). -/
def pre_loop_hook (params : List (String × ℤ)) (now : ℤ) : ResponderState :=
  { state := []
    cleanup_interval := (dget params "cleanup_interval").getD 100
    last_cleanup_time := now }

/-- PromptResponder.update_state: store the message under its request id,
stamp it with the current time, then, when at least cleanup_interval has
passed since the last cleanup, rebuild the store keeping only entries whose
age is at most cleanup_interval and reset last_cleanup_time.  none models
the KeyError on a message without a string request id. -/
def update_state (now : ℤ) (message : Dict) (rs : ResponderState) :
    Option ResponderState :=
  match dget message "request_id" with
  | some (PyVal.vstr rid) =>
    let entry := dset message "timestamp" (PyVal.vnum now)
    let st := dset rs.state rid entry
    if rs.cleanup_interval ≤ now - rs.last_cleanup_time then
      some { rs with
              state := evict_expired now rs.cleanup_interval st
              last_cleanup_time := now }
    else
      some { rs with state := st }
  | _ => none

/-- PromptResponder._execute: when no message was consumed, return without
touching the state and without producing; otherwise update the state and
produce the whole current state as one snapshot.  The result pairs the new
node state with the list of snapshots published during the call. -/
def responder_execute (now : ℤ) (consumed : Option Dict) (rs : ResponderState) :
    Option (ResponderState × List Store) :=
  match consumed with
  | none => some (rs, [])
  | some msg =>
    match update_state now msg rs with
    | some rs2 => some (rs2, [rs2.state])
    | none => none

/-- The result dict built by Prompt._execute after a successful LLM call:
a dict literal with keys "dream" (the response content) and "request_id". -/
def prompt_llm_response (content rid : String) : Dict :=
  [("dream", PyVal.vstr content), ("request_id", PyVal.vstr rid)]

/-- LLMResponseFormatter._execute forwards the consumed message unchanged. -/
def format_llm_response (m : Dict) : Dict :=
  m

/-
The API side: src/aineko_dream/api/main.py.
-/

/-- TIMEOUT = 60 * 5 seconds, the wall-clock deadline of both polling loops. -/
def TIMEOUT : ℕ := 60 * 5

/-- Outcome of one fetch_latest_message attempt at the transport layer:
either a successfully consumed and decoded snapshot of the response cache,
or a consume/decode/evaluate failure (the except-branch raises). -/
inductive Fetched where
  | ok : Store → Fetched
  | failed : Fetched
deriving DecidableEq

/-- fetch_latest_message: on success return the decoded snapshot, on any
failure raise HTTPException with status 500. -/
def fetch_latest_message (f : Fetched) : Except ℕ Store :=
  match f with
  | Fetched.ok st => Except.ok st
  | Fetched.failed => Except.error 500

/-- Observable events of one wait_response / wait_and_post call, in order:
a fetch of the latest snapshot (poll), the synchronous time.sleep executed
on the event loop between iterations (blocking by nature: it is the plain
system sleep, not an awaited suspension), and an outgoing requests.post. -/
inductive Ev where
  | poll : Ev
  | blocking_sleep : ℤ → Ev
  | post : String → Dict → Ev
deriving DecidableEq

/-- Final outcome of a wait call: a returned response value (wait_response),
a plain return (wait_and_post), a raised HTTPException with the given
status, or an uncaught Python KeyError on the given key. -/
inductive Outcome where
  | returned : PyVal → Outcome
  | completed : Outcome
  | http_error : ℕ → Outcome
  | key_error : String → Outcome
deriving DecidableEq

/-- The polling loop of wait_response.  The iteration counter k is the
elapsed whole seconds since start_time (time advances only through the
one-second sleeps); gas = TIMEOUT - k makes the recursion structural, so
gas = 0 is exactly the failure of the loop guard
time.time() - start_time < TIMEOUT, upon which the else-branch raises 408.
Each iteration re-fetches a fresh snapshot (polls k), propagates the 500
from a failed fetch, returns response_cache[request_id]["response"] when
the request id is a member (KeyError when the entry lacks that field),
and otherwise sleeps one second and retries. -/
def wait_response_go (polls : ℕ → Fetched) (request_id : String) :
    ℕ → ℕ → Outcome × List Ev
  | _, 0 => (Outcome.http_error 408, [])
  | k, gas + 1 =>
    match polls k with
    | Fetched.failed => (Outcome.http_error 500, [Ev.poll])
    | Fetched.ok cache =>
      match dget cache request_id with
      | some entry =>
        match dget entry "response" with
        | some v => (Outcome.returned v, [Ev.poll])
        | none => (Outcome.key_error "response", [Ev.poll])
      | none =>
        let r := wait_response_go polls request_id (k + 1) gas
        (r.1, Ev.poll :: Ev.blocking_sleep 1 :: r.2)

/-- wait_response: run the polling loop from elapsed time 0. -/
def wait_response (polls : ℕ → Fetched) (request_id : String) :
    Outcome × List Ev :=
  wait_response_go polls request_id 0 TIMEOUT

/-- The fixed body posted by wait_and_post on timeout. -/
def timeout_text : PyVal :=
  PyVal.vstr "Timeout while waiting for response."

/-- The polling loop of wait_and_post: as wait_response_go, but on success
it posts one message with the found response text to response_url and
returns, and on deadline expiry it first posts the timeout text to
response_url and then raises 408.  The KeyError on a found entry without a
"response" field fires while building the json argument, before any post. -/
def wait_and_post_go (polls : ℕ → Fetched) (request_id response_url : String) :
    ℕ → ℕ → Outcome × List Ev
  | _, 0 =>
    (Outcome.http_error 408, [Ev.post response_url [("text", timeout_text)]])
  | k, gas + 1 =>
    match polls k with
    | Fetched.failed => (Outcome.http_error 500, [Ev.poll])
    | Fetched.ok cache =>
      match dget cache request_id with
      | some entry =>
        match dget entry "response" with
        | some v =>
          (Outcome.completed, [Ev.poll, Ev.post response_url [("text", v)]])
        | none => (Outcome.key_error "response", [Ev.poll])
      | none =>
        let r := wait_and_post_go polls request_id response_url (k + 1) gas
        (r.1, Ev.poll :: Ev.blocking_sleep 1 :: r.2)

/-- wait_and_post: run the posting poll loop from elapsed time 0. -/
def wait_and_post (polls : ℕ → Fetched) (request_id response_url : String) :
    Outcome × List Ev :=
  wait_and_post_go polls request_id response_url 0 TIMEOUT

/-- Number of fetch attempts in an event trace. -/
def poll_count (evs : List Ev) : ℕ :=
  (evs.filter (fun e => match e with | Ev.poll => true | _ => false)).length

/-- Total seconds spent in blocking sleeps in an event trace. -/
def sleep_total (evs : List Ev) : ℤ :=
  (evs.filterMap (fun e => match e with
    | Ev.blocking_sleep q => some q
    | _ => none)).sum

/-- The posts of an event trace, in order: destination url and json body. -/
def posts (evs : List Ev) : List (String × Dict) :=
  evs.filterMap (fun e => match e with
    | Ev.post u b => some (u, b)
    | _ => none)

/-- Whether a trace contains a blocking system sleep. -/
def has_blocking_sleep (evs : List Ev) : Bool :=
  evs.any (fun e => match e with | Ev.blocking_sleep _ => true | _ => false)

/-- The trace block of one fruitless polling iteration, repeated j times:
poll, then sleep one second. -/
def sleep_block (j : ℕ) : List Ev :=
  (List.replicate j [Ev.poll, Ev.blocking_sleep 1]).flatten

/-- Number of entries one eviction pass removes.  This is the observable
the specification ascribes to the eviction pass as a return value; the
source computes no such number, so it is derived here from the store sizes
for comparison with the store-only result of the pass. -/
def evicted_count (now ttl : ℤ) (st : Store) : ℕ :=
  st.length - (evict_expired now ttl st).length

/-
Helper lemmas on the dict and store operations.
-/

theorem dget_eq_none_of_keys {l : List (String × α)} {rid : String}
    (h : ∀ kv ∈ l, (kv.1 == rid) = false) : dget l rid = none := by
  unfold dget
  rw [List.find?_eq_none.mpr]
  · rfl
  · intro kv hkv
    simp [h kv hkv]

theorem dget_dset_self (l : List (String × α)) (k : String) (v : α) :
    dget (dset l k v) k = some v := by
  unfold dset
  by_cases hany : l.any (fun kv => kv.1 == k) = true
  · simp only [hany, if_true]
    induction l with
    | nil => simp at hany
    | cons hd tl ih =>
      by_cases hhd : (hd.1 == k) = true
      · simp [dget, List.find?, hhd]
      · simp only [List.any_cons, hhd, Bool.false_or] at hany
        simp only [List.map_cons, hhd, if_neg, Bool.false_eq_true,
          not_false_iff]
        simp only [dget, List.find?, hhd] at ih ⊢
        exact ih hany
  · have hany' : l.any (fun kv => kv.1 == k) = false := by
      rw [← Bool.not_eq_true]
      exact hany
    simp only [hany', Bool.false_eq_true, if_false]
    have hfind : l.find? (fun kv => kv.1 == k) = none := by
      rw [List.find?_eq_none]
      intro kv hkv hcon
      have hz : l.any (fun kv => kv.1 == k) = true :=
        List.any_eq_true.mpr ⟨kv, hkv, hcon⟩
      rw [hz] at hany'
      exact Bool.noConfusion hany'
    unfold dget
    rw [List.find?_append, hfind]
    simp [List.find?]

theorem lookup_filter_of_ok {l : Store} {f : String × Dict → Bool}
    {rid : String} {e : Dict} (hget : dget l rid = some e)
    (hf : f (rid, e) = true) : dget (l.filter f) rid = some e := by
  induction l with
  | nil => simp [dget] at hget
  | cons hd tl ih =>
    by_cases hhd : (hd.1 == rid) = true
    · have hd1 : hd.1 = rid := by simpa using hhd
      have hd2 : hd.2 = e := by
        simp [dget, List.find?, hhd] at hget
        exact hget
      have hdeq : hd = (rid, e) := by
        cases hd
        simp_all
      rw [hdeq, List.filter_cons, hf]
      simp [dget, List.find?]
    · have hget' : dget tl rid = some e := by
        simpa [dget, List.find?, hhd] using hget
      rw [List.filter_cons]
      by_cases hfhd : f hd = true
      · simp only [hfhd, if_true]
        simpa [dget, List.find?, hhd] using ih hget'
      · simp only [hfhd, if_false, Bool.false_eq_true]
        exact ih hget'

theorem lookup_filter_of_dropped {l : Store} {f : String × Dict → Bool}
    {rid : String} {e : Dict} (hnd : (l.map Prod.fst).Nodup)
    (hget : dget l rid = some e) (hf : f (rid, e) = false) :
    dget (l.filter f) rid = none := by
  induction l with
  | nil => simp [dget] at hget
  | cons hd tl ih =>
    rw [List.map_cons, List.nodup_cons] at hnd
    by_cases hhd : (hd.1 == rid) = true
    · have hd1 : hd.1 = rid := by simpa using hhd
      have hd2 : hd.2 = e := by
        simp [dget, List.find?, hhd] at hget
        exact hget
      have hdeq : hd = (rid, e) := by
        cases hd
        simp_all
      rw [hdeq, List.filter_cons, hf]
      simp only [Bool.false_eq_true, if_false]
      apply dget_eq_none_of_keys
      intro kv hkv
      have hmem : kv ∈ tl := List.mem_of_mem_filter hkv
      have : kv.1 ≠ rid := by
        intro hcon
        apply hnd.1
        rw [hd1, ← hcon]
        exact List.mem_map_of_mem Prod.fst hmem
      simpa using this
    · have hget' : dget tl rid = some e := by
        simpa [dget, List.find?, hhd] using hget
      rw [List.filter_cons]
      by_cases hfhd : f hd = true
      · simp only [hfhd, if_true]
        simpa [dget, List.find?, hhd] using ih hnd.2 hget'
      · simp only [hfhd, if_false, Bool.false_eq_true]
        exact ih hnd.2 hget'

theorem mem_dset_self (l : List (String × α)) (k : String) (v : α) :
    (k, v) ∈ dset l k v := by
  unfold dset
  by_cases hany : l.any (fun kv => kv.1 == k) = true
  · simp only [hany, if_true]
    rcases List.any_eq_true.mp hany with ⟨kv, hmem, hbeq⟩
    exact List.mem_map.mpr ⟨kv, hmem, by simp [hbeq]⟩
  · have hany' : l.any (fun kv => kv.1 == k) = false := by
      rw [← Bool.not_eq_true]
      exact hany
    simp [hany']

theorem dset_keyed_eq {l : List (String × α)} {k : String} {v : α} :
    ∀ kv ∈ dset l k v, kv.1 = k → kv = (k, v) := by
  intro kv hmem hkey
  unfold dset at hmem
  by_cases hany : l.any (fun kv => kv.1 == k) = true
  · simp only [hany, if_true] at hmem
    rcases List.mem_map.mp hmem with ⟨kv0, _, heq⟩
    by_cases h0 : (kv0.1 == k) = true
    · rw [if_pos h0] at heq
      exact heq.symm
    · rw [if_neg h0] at heq
      rw [← heq] at hkey
      exact absurd (by simp [hkey]) h0
  · have hany' : l.any (fun kv => kv.1 == k) = false := by
      rw [← Bool.not_eq_true]
      exact hany
    simp only [hany', Bool.false_eq_true, if_false, List.mem_append] at hmem
    rcases hmem with hmem | hmem
    · exfalso
      apply hany
      exact List.any_eq_true.mpr ⟨kv, hmem, by simp [hkey]⟩
    · simpa using hmem

theorem dset_eq_self {l : List (String × α)} {k : String} {v : α}
    (hmem : ∃ kv ∈ l, kv.1 = k)
    (hall : ∀ kv ∈ l, kv.1 = k → kv = (k, v)) :
    dset l k v = l := by
  rcases hmem with ⟨kw, hkw, hkwk⟩
  have hany : l.any (fun kv => kv.1 == k) = true :=
    List.any_eq_true.mpr ⟨kw, hkw, by simp [hkwk]⟩
  unfold dset
  simp only [hany, if_true]
  have : ∀ kv ∈ l, (if (kv.1 == k) = true then (k, v) else kv) = kv := by
    intro kv hkv
    by_cases hb : (kv.1 == k) = true
    · rw [if_pos hb]
      exact (hall kv hkv (by simpa using hb)).symm
    · rw [if_neg hb]
  rw [List.map_congr_left this]
  simp

theorem sleep_block_zero : sleep_block 0 = [] := by
  simp [sleep_block]

theorem sleep_block_succ (j : ℕ) :
    sleep_block (j + 1) = Ev.poll :: Ev.blocking_sleep 1 :: sleep_block j := by
  simp [sleep_block, List.replicate_succ]

theorem posts_append (l1 l2 : List Ev) :
    posts (l1 ++ l2) = posts l1 ++ posts l2 := by
  simp [posts, List.filterMap_append]

theorem posts_sleep_block (n : ℕ) : posts (sleep_block n) = [] := by
  induction n with
  | zero => simp [sleep_block_zero, posts]
  | succ m ih => rw [sleep_block_succ]; simpa [posts] using ih

theorem wait_response_go_skip (polls : ℕ → Fetched) (cache : ℕ → Store)
    (rid : String) : ∀ (j s k : ℕ),
    (∀ i, i < j → polls (k + i) = Fetched.ok (cache (k + i)) ∧
      dget (cache (k + i)) rid = none) →
    wait_response_go polls rid k (j + s) =
      ((wait_response_go polls rid (k + j) s).1,
        sleep_block j ++ (wait_response_go polls rid (k + j) s).2) := by
  intro j
  induction j with
  | zero =>
    intro s k _
    simp [sleep_block_zero]
  | succ m ih =>
    intro s k h
    have hk : polls k = Fetched.ok (cache k) ∧ dget (cache k) rid = none := by
      simpa using h 0 (Nat.succ_pos m)
    have hstep : wait_response_go polls rid k (m + 1 + s) =
        ((wait_response_go polls rid (k + 1) (m + s)).1,
          Ev.poll :: Ev.blocking_sleep 1 ::
            (wait_response_go polls rid (k + 1) (m + s)).2) := by
      have harith : m + 1 + s = (m + s) + 1 := by omega
      rw [harith]
      simp only [wait_response_go, hk.1, hk.2]
    have hrest := ih s (k + 1) (by
      intro i hi
      have := h (i + 1) (Nat.succ_lt_succ hi)
      have harith : k + (i + 1) = k + 1 + i := by omega
      rw [harith] at this
      exact this)
    rw [hstep, hrest]
    have harith2 : k + 1 + m = k + (m + 1) := by omega
    rw [harith2, sleep_block_succ]
    rfl

theorem wait_and_post_go_skip (polls : ℕ → Fetched) (cache : ℕ → Store)
    (rid url : String) : ∀ (j s k : ℕ),
    (∀ i, i < j → polls (k + i) = Fetched.ok (cache (k + i)) ∧
      dget (cache (k + i)) rid = none) →
    wait_and_post_go polls rid url k (j + s) =
      ((wait_and_post_go polls rid url (k + j) s).1,
        sleep_block j ++ (wait_and_post_go polls rid url (k + j) s).2) := by
  intro j
  induction j with
  | zero =>
    intro s k _
    simp [sleep_block_zero]
  | succ m ih =>
    intro s k h
    have hk : polls k = Fetched.ok (cache k) ∧ dget (cache k) rid = none := by
      simpa using h 0 (Nat.succ_pos m)
    have hstep : wait_and_post_go polls rid url k (m + 1 + s) =
        ((wait_and_post_go polls rid url (k + 1) (m + s)).1,
          Ev.poll :: Ev.blocking_sleep 1 ::
            (wait_and_post_go polls rid url (k + 1) (m + s)).2) := by
      have harith : m + 1 + s = (m + s) + 1 := by omega
      rw [harith]
      simp only [wait_and_post_go, hk.1, hk.2]
    have hrest := ih s (k + 1) (by
      intro i hi
      have := h (i + 1) (Nat.succ_lt_succ hi)
      have harith : k + (i + 1) = k + 1 + i := by omega
      rw [harith] at this
      exact this)
    rw [hstep, hrest]
    have harith2 : k + 1 + m = k + (m + 1) := by omega
    rw [harith2, sleep_block_succ]
    rfl

theorem mem_evict_expired_iff (now ttl : ℤ) (st : Store)
    (kv : String × Dict) :
    kv ∈ evict_expired now ttl st ↔
      kv ∈ st ∧ ∃ t, dget kv.2 "timestamp" = some (PyVal.vnum t) ∧
        now - t ≤ ttl := by
  unfold evict_expired
  rw [List.mem_filter]
  constructor
  · rintro ⟨hmem, hok⟩
    refine ⟨hmem, ?_⟩
    unfold entry_age_ok at hok
    rcases hts : dget kv.2 "timestamp" with _ | v
    · rw [hts] at hok
      exact absurd hok (by simp)
    · rcases v with w | t
      · rw [hts] at hok
        exact absurd hok (by simp)
      · rw [hts] at hok
        exact ⟨t, rfl, by simpa using hok⟩
  · rintro ⟨hmem, t, hts, hle⟩
    refine ⟨hmem, ?_⟩
    unfold entry_age_ok
    rw [hts]
    simpa using hle

/-
Claim theorems.
-/

set_option maxRecDepth 20000
set_option synthInstance.maxSize 2048
set_option synthInstance.maxHeartbeats 1600000

/-- C1: the claim says a result recorded before polling begins is returned
by wait_response on its first poll and equals the value the worker
published.  The code violates the second half: Prompt._execute publishes
the LLM content under the key "dream", while wait_response reads the key
"response" from the recorded entry.  At the concrete failing input below a
worker result for correlation id r1 is recorded and published as a
snapshot before polling begins; the first poll does find r1 in the
snapshot and performs no sleep, but evaluating the entry at the key
"response" raises KeyError instead of returning the published value
"hello world". -/
theorem c1_first_poll_key_mismatch :
    responder_execute 5
        (some (format_llm_response (prompt_llm_response "hello world" "r1")))
        (pre_loop_hook [] 0) =
      some ({ state := [("r1", [("dream", PyVal.vstr "hello world"),
                                ("request_id", PyVal.vstr "r1"),
                                ("timestamp", PyVal.vnum 5)])],
              cleanup_interval := 100, last_cleanup_time := 0 },
            [[("r1", [("dream", PyVal.vstr "hello world"),
                      ("request_id", PyVal.vstr "r1"),
                      ("timestamp", PyVal.vnum 5)])]]) ∧
    wait_response (fun _ => Fetched.ok
        [("r1", [("dream", PyVal.vstr "hello world"),
                 ("request_id", PyVal.vstr "r1"),
                 ("timestamp", PyVal.vnum 5)])]) "r1" =
      (Outcome.key_error "response", [Ev.poll]) := by
  decide

/-- C5: the claim says the polling loop never executes a blocking system
sleep on the shared event loop.  The source calls time.sleep(1) between
iterations of both wait_response and wait_and_post, a synchronous blocking
sleep executed inside an async def on the event loop; the traces below,
for a run whose correlation id arrives only at the second poll, each
contain that blocking sleep. -/
theorem c5_blocking_sleep_in_loop :
    wait_response (fun k => match k with
        | 0 => Fetched.ok []
        | _ + 1 => Fetched.ok [("r1", [("response", PyVal.vstr "v")])]) "r1" =
      (Outcome.returned (PyVal.vstr "v"),
        [Ev.poll, Ev.blocking_sleep 1, Ev.poll]) ∧
    wait_and_post (fun k => match k with
        | 0 => Fetched.ok []
        | _ + 1 => Fetched.ok [("r1", [("response", PyVal.vstr "v")])])
        "r1" "https://hooks.example/r1" =
      (Outcome.completed,
        [Ev.poll, Ev.blocking_sleep 1, Ev.poll,
         Ev.post "https://hooks.example/r1" [("text", PyVal.vstr "v")]]) ∧
    has_blocking_sleep [Ev.poll, Ev.blocking_sleep 1, Ev.poll] = true := by
  decide

/-- C3 counterexample: a single malformed read does terminate the wait
early with an error.  With a snapshot stream whose first fetch fails to
decode and whose every later fetch would deliver the result for r1,
wait_response ends at once with HTTPException 500 after one poll; with the
first fetch clean the same wait would have returned the value, so the one
malformed read doomed an otherwise-successful wait. -/
theorem c3_decode_error_aborts :
    wait_response (fun k => match k with
        | 0 => Fetched.failed
        | _ + 1 => Fetched.ok [("r1", [("response", PyVal.vstr "v")])]) "r1" =
      (Outcome.http_error 500, [Ev.poll]) ∧
    wait_response (fun _ =>
        Fetched.ok [("r1", [("response", PyVal.vstr "v")])]) "r1" =
      (Outcome.returned (PyVal.vstr "v"), [Ev.poll]) := by
  decide

/-- C3 amended: a fetch or decode failure during any polling iteration is
not swallowed: fetch_latest_message wraps it in HTTPException 500, which
immediately terminates the wait.  If the first j iterations fetch clean
snapshots not containing the correlation id and iteration j (< TIMEOUT)
hits a malformed read, wait_response ends with 500 right there, after j+1
polls and j sleeps. -/
theorem c3_decode_error_terminates (polls : ℕ → Fetched) (cache : ℕ → Store)
    (rid : String) (j : ℕ) (hj : j < TIMEOUT)
    (hok : ∀ i, i < j → polls i = Fetched.ok (cache i) ∧
      dget (cache i) rid = none)
    (hbad : polls j = Fetched.failed) :
    wait_response polls rid =
      (Outcome.http_error 500, sleep_block j ++ [Ev.poll]) := by
  obtain ⟨s, hs⟩ : ∃ s, TIMEOUT - j = s + 1 :=
    ⟨TIMEOUT - j - 1, by omega⟩
  have hsplit : TIMEOUT = j + (s + 1) := by omega
  unfold wait_response
  rw [hsplit]
  rw [wait_response_go_skip polls cache rid j (s + 1) 0 (by
    intro i hi
    simpa using hok i hi)]
  have hgo : wait_response_go polls rid (0 + j) (s + 1) =
      (Outcome.http_error 500, [Ev.poll]) := by
    have hj0 : (0 + j) = j := by omega
    rw [hj0]
    simp only [wait_response_go, hbad]
  rw [hgo]

/-- C3 amended, witness: a malformed read on the very first iteration. -/
theorem c3_decode_error_terminates_witness :
    wait_response (fun _ => Fetched.failed) "r1" =
      (Outcome.http_error 500, sleep_block 0 ++ [Ev.poll]) :=
  c3_decode_error_terminates (fun _ => Fetched.failed) (fun _ => []) "r1" 0
    (by decide) (fun i hi => absurd hi (Nat.not_lt_zero i)) rfl

/-- C6 counterexample: recording the same message twice in succession does
not leave the store in the same observable state as recording it once.
The second call restamps the entry with its own current time (one second
later), so the stored timestamp differs from the single-call state. -/
theorem c6_record_twice_differs :
    (update_state 0 [("request_id", PyVal.vstr "r"), ("dream", PyVal.vstr "v")]
        (pre_loop_hook [] 0)).bind
      (update_state 1
        [("request_id", PyVal.vstr "r"), ("dream", PyVal.vstr "v")]) ≠
    update_state 0 [("request_id", PyVal.vstr "r"), ("dream", PyVal.vstr "v")]
      (pre_loop_hook [] 0) := by
  decide

/-- C7 counterexample: the eviction pass returns no count of evicted
entries; its only result is the new store, and that result does not even
determine the count.  Two stores from which an eviction pass at time 200
with ttl 100 evicts different numbers of entries (one and two) produce
identical results, so no count of evicted entries is returned or
recoverable from the return value. -/
theorem c7_no_evicted_count :
    evict_expired 200 100 [("a", [("timestamp", PyVal.vnum 0)])] =
      evict_expired 200 100 [("a", [("timestamp", PyVal.vnum 0)]),
                             ("b", [("timestamp", PyVal.vnum 0)])] ∧
    evicted_count 200 100 [("a", [("timestamp", PyVal.vnum 0)])] ≠
      evicted_count 200 100 [("a", [("timestamp", PyVal.vnum 0)]),
                             ("b", [("timestamp", PyVal.vnum 0)])] := by
  decide

/-- C7 amended: each invocation of the eviction pass rebuilds the store
keeping exactly the entries whose age is within the ttl (an entry survives
iff it is in the store and carries a numeric timestamp at most ttl old);
it returns the new store and no count of evicted entries. -/
theorem c7_evict_expired_membership (now ttl : ℤ) (st : Store)
    (kv : String × Dict) :
    kv ∈ evict_expired now ttl st ↔
      kv ∈ st ∧ ∃ t, dget kv.2 "timestamp" = some (PyVal.vnum t) ∧
        now - t ≤ ttl :=
  mem_evict_expired_iff now ttl st kv

/-- C2: for a correlation id that never appears in any polled snapshot
(every fetch decodes to a snapshot without the id), both wait_response and
wait_and_post end in HTTPException 408.  The trace is exactly TIMEOUT
fruitless iterations, so every one of the TIMEOUT polls starts at an
elapsed time below the deadline (no poll attempt after expiry) and the
loop exits the moment the guard sees the deadline reached, at elapsed
time TIMEOUT, within one poll interval of the deadline. -/
theorem c2_deadline_exceeded (polls : ℕ → Fetched) (cache : ℕ → Store)
    (rid url : String)
    (hok : ∀ i, polls i = Fetched.ok (cache i))
    (habs : ∀ i, dget (cache i) rid = none) :
    wait_response polls rid = (Outcome.http_error 408, sleep_block TIMEOUT) ∧
    wait_and_post polls rid url =
      (Outcome.http_error 408,
        sleep_block TIMEOUT ++ [Ev.post url [("text", timeout_text)]]) ∧
    poll_count (sleep_block TIMEOUT) = TIMEOUT ∧
    sleep_total (sleep_block TIMEOUT) = (TIMEOUT : ℤ) := by
  have hhyp : ∀ i, i < TIMEOUT →
      polls (0 + i) = Fetched.ok (cache (0 + i)) ∧
      dget (cache (0 + i)) rid = none :=
    fun i _ => ⟨hok (0 + i), habs (0 + i)⟩
  refine ⟨?_, ?_, by decide, by decide⟩
  · unfold wait_response
    have hskip := wait_response_go_skip polls cache rid TIMEOUT 0 0 hhyp
    rw [Nat.add_zero] at hskip
    rw [hskip]
    simp only [wait_response_go, List.append_nil]
  · unfold wait_and_post
    have hskip := wait_and_post_go_skip polls cache rid url TIMEOUT 0 0 hhyp
    rw [Nat.add_zero] at hskip
    rw [hskip]
    simp only [wait_and_post_go]

/-- C2, witness: a snapshot stream that is always an empty cache. -/
theorem c2_deadline_exceeded_witness :
    wait_response (fun _ => Fetched.ok []) "r1" =
      (Outcome.http_error 408, sleep_block TIMEOUT) ∧
    wait_and_post (fun _ => Fetched.ok []) "r1" "https://hooks.example/r1" =
      (Outcome.http_error 408,
        sleep_block TIMEOUT ++
          [Ev.post "https://hooks.example/r1" [("text", timeout_text)]]) :=
  ⟨(c2_deadline_exceeded (fun _ => Fetched.ok []) (fun _ => []) "r1"
      "https://hooks.example/r1" (fun _ => rfl) (fun _ => rfl)).1,
   (c2_deadline_exceeded (fun _ => Fetched.ok []) (fun _ => []) "r1"
      "https://hooks.example/r1" (fun _ => rfl) (fun _ => rfl)).2.1⟩

/-- C4: TTL eviction.  After an eviction pass at time now, every surviving
entry is at most ttl old; an entry stamped T survives any eviction pass
run at a time at most T + ttl and is read back unchanged by lookup; an
eviction pass run after T + ttl removes it, after which lookup returns
absent; and a record (update_state) at time T stores the entry stamped
exactly T, so its age clock starts at the record. -/
theorem c4_ttl_eviction (now ttl T : ℤ) (st : Store) (rid : String)
    (e : Dict) (msg : Dict) (rs rs' : ResponderState) :
    (∀ kv ∈ evict_expired now ttl st, ∃ t,
        dget kv.2 "timestamp" = some (PyVal.vnum t) ∧ now - t ≤ ttl) ∧
    (lookup st rid = some e → dget e "timestamp" = some (PyVal.vnum T) →
      now ≤ T + ttl → lookup (evict_expired now ttl st) rid = some e) ∧
    ((st.map Prod.fst).Nodup → lookup st rid = some e →
      dget e "timestamp" = some (PyVal.vnum T) → T + ttl < now →
      lookup (evict_expired now ttl st) rid = none) ∧
    (dget msg "request_id" = some (PyVal.vstr rid) →
      update_state T msg rs = some rs' → 0 ≤ rs.cleanup_interval →
      lookup rs'.state rid =
        some (dset msg "timestamp" (PyVal.vnum T))) := by
  refine ⟨?_, ?_, ?_, ?_⟩
  · intro kv hkv
    exact ((mem_evict_expired_iff now ttl st kv).mp hkv).2
  · intro hget hts hle
    apply lookup_filter_of_ok hget
    unfold entry_age_ok
    rw [hts]
    simp only [decide_eq_true_eq]
    omega
  · intro hnd hget hts hlt
    apply lookup_filter_of_dropped hnd hget
    unfold entry_age_ok
    rw [hts]
    simp only [decide_eq_false_iff_not]
    omega
  · intro hrid hupd hci
    simp only [update_state, hrid] at hupd
    by_cases hc : rs.cleanup_interval ≤ T - rs.last_cleanup_time
    · rw [if_pos hc] at hupd
      have hrs' := (Option.some.inj hupd).symm
      rw [hrs']
      apply lookup_filter_of_ok
        (dget_dset_self rs.state rid (dset msg "timestamp" (PyVal.vnum T)))
      unfold entry_age_ok
      rw [dget_dset_self]
      simp only [decide_eq_true_eq]
      omega
    · rw [if_neg hc] at hupd
      have hrs' := (Option.some.inj hupd).symm
      rw [hrs']
      exact dget_dset_self rs.state rid (dset msg "timestamp" (PyVal.vnum T))

/-- C4, witness: a two-entry store, one fresh and one expired, evicted at
time 150 with ttl 100; plus a lookup on the empty initial store. -/
theorem c4_ttl_eviction_witness :
    (∀ kv ∈ evict_expired 150 100 [("a", [("timestamp", PyVal.vnum 60)]),
        ("b", [("timestamp", PyVal.vnum 10)])], ∃ t,
      dget kv.2 "timestamp" = some (PyVal.vnum t) ∧ (150 : ℤ) - t ≤ 100) ∧
    lookup (evict_expired 150 100 [("a", [("timestamp", PyVal.vnum 60)]),
        ("b", [("timestamp", PyVal.vnum 10)])]) "a" =
      some [("timestamp", PyVal.vnum 60)] ∧
    lookup (evict_expired 150 100 [("a", [("timestamp", PyVal.vnum 60)]),
        ("b", [("timestamp", PyVal.vnum 10)])]) "b" = none ∧
    lookup ((pre_loop_hook [] 0).state) "r" = none := by
  have h1 := c4_ttl_eviction 150 100 60
      [("a", [("timestamp", PyVal.vnum 60)]),
       ("b", [("timestamp", PyVal.vnum 10)])] "a"
      [("timestamp", PyVal.vnum 60)] [] (pre_loop_hook [] 0)
      (pre_loop_hook [] 0)
  have h2 := c4_ttl_eviction 150 100 10
      [("a", [("timestamp", PyVal.vnum 60)]),
       ("b", [("timestamp", PyVal.vnum 10)])] "b"
      [("timestamp", PyVal.vnum 10)] [] (pre_loop_hook [] 0)
      (pre_loop_hook [] 0)
  refine ⟨h1.1, h1.2.1 (by decide) (by decide) (by decide),
    h2.2.2.1 (by decide) (by decide) (by decide) (by decide), by decide⟩

/-- C6 amended: the second of two successive record calls with the same
(id, value) restamps the entry with its own current time, so in general
the states differ exactly in that timestamp (see the counterexample);
when the two calls carry the same sampled current time and the cleanup
interval is positive, the second call leaves the responder state exactly
unchanged. -/
theorem c6_record_idempotent_same_instant (now : ℤ) (msg : Dict)
    (rs rs' : ResponderState) (hci : 0 < rs.cleanup_interval)
    (h1 : update_state now msg rs = some rs') :
    update_state now msg rs' = some rs' := by
  rcases hrid : dget msg "request_id" with _ | v
  · simp only [update_state, hrid] at h1
    exact Option.noConfusion h1
  · rcases v with rid | t
    · simp only [update_state, hrid] at h1
      by_cases hc : rs.cleanup_interval ≤ now - rs.last_cleanup_time
      · rw [if_pos hc] at h1
        have hrs' := (Option.some.inj h1).symm
        subst hrs'
        simp only [update_state, hrid]
        rw [if_neg (show ¬rs.cleanup_interval ≤ now - now by omega)]
        have hmem : (rid, dset msg "timestamp" (PyVal.vnum now)) ∈
            evict_expired now rs.cleanup_interval
              (dset rs.state rid (dset msg "timestamp" (PyVal.vnum now))) := by
          rw [mem_evict_expired_iff]
          refine ⟨mem_dset_self rs.state rid _, now, ?_, by omega⟩
          exact dget_dset_self msg "timestamp" (PyVal.vnum now)
        have hall : ∀ kv ∈ evict_expired now rs.cleanup_interval
            (dset rs.state rid (dset msg "timestamp" (PyVal.vnum now))),
            kv.1 = rid → kv = (rid, dset msg "timestamp" (PyVal.vnum now)) := by
          intro kv hkv hk
          exact dset_keyed_eq kv ((mem_evict_expired_iff _ _ _ kv).mp hkv).1 hk
        rw [dset_eq_self ⟨_, hmem, rfl⟩ hall]
      · rw [if_neg hc] at h1
        have hrs' := (Option.some.inj h1).symm
        subst hrs'
        simp only [update_state, hrid]
        rw [if_neg (show ¬rs.cleanup_interval ≤ now - rs.last_cleanup_time from hc)]
        have hall : ∀ kv ∈ dset rs.state rid (dset msg "timestamp" (PyVal.vnum now)),
            kv.1 = rid → kv = (rid, dset msg "timestamp" (PyVal.vnum now)) :=
          fun kv hkv hk => dset_keyed_eq kv hkv hk
        rw [dset_eq_self ⟨_, mem_dset_self rs.state rid _, rfl⟩ hall]
    · simp only [update_state, hrid] at h1
      exact Option.noConfusion h1

/-- C6 amended, witness: recording the same message twice at the same
sampled instant 5 leaves the state of the first record unchanged. -/
theorem c6_record_idempotent_witness :
    update_state 5 [("request_id", PyVal.vstr "r"), ("dream", PyVal.vstr "v")]
        (pre_loop_hook [] 0) =
      some { state := [("r", [("request_id", PyVal.vstr "r"),
                              ("dream", PyVal.vstr "v"),
                              ("timestamp", PyVal.vnum 5)])],
             cleanup_interval := 100, last_cleanup_time := 0 } ∧
    update_state 5 [("request_id", PyVal.vstr "r"), ("dream", PyVal.vstr "v")]
        { state := [("r", [("request_id", PyVal.vstr "r"),
                           ("dream", PyVal.vstr "v"),
                           ("timestamp", PyVal.vnum 5)])],
          cleanup_interval := 100, last_cleanup_time := 0 } =
      some { state := [("r", [("request_id", PyVal.vstr "r"),
                              ("dream", PyVal.vstr "v"),
                              ("timestamp", PyVal.vnum 5)])],
             cleanup_interval := 100, last_cleanup_time := 0 } :=
  ⟨by decide,
   c6_record_idempotent_same_instant 5
     [("request_id", PyVal.vstr "r"), ("dream", PyVal.vstr "v")]
     (pre_loop_hook [] 0) _ (by decide) (by decide)⟩

/-- C8: PromptResponder._execute publishes a full-state snapshot exactly
when a newly arrived formatted response is recorded: with nothing consumed
it publishes nothing and leaves the state untouched, and after a
successful record it publishes exactly one snapshot, equal to the entire
current (post-record) mapping. -/
theorem c8_snapshot_publication (now : ℤ) (msg : Dict)
    (rs rs' : ResponderState) :
    responder_execute now none rs = some (rs, []) ∧
    (update_state now msg rs = some rs' →
      responder_execute now (some msg) rs = some (rs', [rs'.state])) := by
  refine ⟨rfl, ?_⟩
  intro h
  simp only [responder_execute, h]

/-- C8, witness: one record on the empty responder publishes exactly the
one-entry mapping as a single snapshot. -/
theorem c8_snapshot_publication_witness :
    responder_execute 5 none (pre_loop_hook [] 0) =
      some (pre_loop_hook [] 0, []) ∧
    responder_execute 5
        (some [("request_id", PyVal.vstr "r"), ("dream", PyVal.vstr "v")])
        (pre_loop_hook [] 0) =
      some ({ state := [("r", [("request_id", PyVal.vstr "r"),
                               ("dream", PyVal.vstr "v"),
                               ("timestamp", PyVal.vnum 5)])],
              cleanup_interval := 100, last_cleanup_time := 0 },
            [[("r", [("request_id", PyVal.vstr "r"),
                     ("dream", PyVal.vstr "v"),
                     ("timestamp", PyVal.vnum 5)])]]) :=
  ⟨(c8_snapshot_publication 5
      [("request_id", PyVal.vstr "r"), ("dream", PyVal.vstr "v")]
      (pre_loop_hook [] 0) (pre_loop_hook [] 0)).1,
   (c8_snapshot_publication 5
      [("request_id", PyVal.vstr "r"), ("dream", PyVal.vstr "v")]
      (pre_loop_hook [] 0)
      { state := [("r", [("request_id", PyVal.vstr "r"),
                         ("dream", PyVal.vstr "v"),
                         ("timestamp", PyVal.vnum 5)])],
        cleanup_interval := 100, last_cleanup_time := 0 }).2 (by decide)⟩

/-- C9: the eviction age threshold and the minimum interval between
eviction passes are one and the same parameter, the responder field
cleanup_interval, which _pre_loop_hook defaults to 100; entries leave the
store only inside update_state (a record): an execute step that consumes
nothing returns the state untouched, so with no new results arriving
expired entries are never evicted. -/
theorem c9_single_ttl_parameter (now : ℤ) (msg : Dict)
    (rs : ResponderState) (rid : String)
    (hrid : dget msg "request_id" = some (PyVal.vstr rid)) :
    (pre_loop_hook [] now).cleanup_interval = 100 ∧
    responder_execute now none rs = some (rs, []) ∧
    (rs.cleanup_interval ≤ now - rs.last_cleanup_time →
      update_state now msg rs = some { rs with
        state := evict_expired now rs.cleanup_interval
          (dset rs.state rid (dset msg "timestamp" (PyVal.vnum now)))
        last_cleanup_time := now }) ∧
    (now - rs.last_cleanup_time < rs.cleanup_interval →
      update_state now msg rs = some { rs with
        state := dset rs.state rid (dset msg "timestamp" (PyVal.vnum now)) }) := by
  refine ⟨rfl, rfl, ?_, ?_⟩
  · intro hc
    simp only [update_state, hrid]
    rw [if_pos hc]
  · intro hc
    simp only [update_state, hrid]
    rw [if_neg (by omega)]

/-- C9, witness: the default interval on an empty parameter dict, a
no-message step, and both branches of a record at times 5 and 200. -/
theorem c9_single_ttl_parameter_witness :
    (pre_loop_hook [] 0).cleanup_interval = 100 ∧
    responder_execute 5 none (pre_loop_hook [] 0) =
      some (pre_loop_hook [] 0, []) ∧
    update_state 200 [("request_id", PyVal.vstr "r")] (pre_loop_hook [] 0) =
      some { (pre_loop_hook [] 0) with
        state := evict_expired 200 (pre_loop_hook [] 0).cleanup_interval
          (dset (pre_loop_hook [] 0).state "r"
            (dset [("request_id", PyVal.vstr "r")] "timestamp" (PyVal.vnum 200)))
        last_cleanup_time := 200 } ∧
    update_state 5 [("request_id", PyVal.vstr "r")] (pre_loop_hook [] 0) =
      some { (pre_loop_hook [] 0) with
        state := dset (pre_loop_hook [] 0).state "r"
          (dset [("request_id", PyVal.vstr "r")] "timestamp" (PyVal.vnum 5)) } :=
  ⟨(c9_single_ttl_parameter 0 [("request_id", PyVal.vstr "r")]
      (pre_loop_hook [] 0) "r" (by decide)).1,
   (c9_single_ttl_parameter 5 [("request_id", PyVal.vstr "r")]
      (pre_loop_hook [] 0) "r" (by decide)).2.1,
   (c9_single_ttl_parameter 200 [("request_id", PyVal.vstr "r")]
      (pre_loop_hook [] 0) "r" (by decide)).2.2.1 (by decide),
   (c9_single_ttl_parameter 5 [("request_id", PyVal.vstr "r")]
      (pre_loop_hook [] 0) "r" (by decide)).2.2.2 (by decide)⟩

/-- C10: posting discipline of wait_and_post.  On deadline expiry without
ever observing the correlation id, the trace ends with exactly one post of
the fixed timeout text to the caller-supplied response_url, produced
before the call resolves to HTTPException 408.  When the id is found at
iteration j with an entry carrying a "response" field, the call completes
normally and the trace contains exactly one post, carrying the found
value, and nothing else is posted. -/
theorem c10_post_discipline (polls : ℕ → Fetched) (cache : ℕ → Store)
    (rid url : String) (j : ℕ) (entry : Dict) (v : PyVal) :
    ((∀ i, polls i = Fetched.ok (cache i)) →
      (∀ i, dget (cache i) rid = none) →
      wait_and_post polls rid url =
        (Outcome.http_error 408,
          sleep_block TIMEOUT ++ [Ev.post url [("text", timeout_text)]]) ∧
      posts (sleep_block TIMEOUT ++ [Ev.post url [("text", timeout_text)]]) =
        [(url, [("text", timeout_text)])]) ∧
    (j < TIMEOUT →
      (∀ i, i < j → polls i = Fetched.ok (cache i) ∧
        dget (cache i) rid = none) →
      polls j = Fetched.ok (cache j) →
      dget (cache j) rid = some entry →
      dget entry "response" = some v →
      wait_and_post polls rid url =
        (Outcome.completed,
          sleep_block j ++ [Ev.poll, Ev.post url [("text", v)]]) ∧
      posts (sleep_block j ++ [Ev.poll, Ev.post url [("text", v)]]) =
        [(url, [("text", v)])]) := by
  constructor
  · intro hok habs
    constructor
    · unfold wait_and_post
      have hskip := wait_and_post_go_skip polls cache rid url TIMEOUT 0 0
        (fun i _ => ⟨hok (0 + i), habs (0 + i)⟩)
      rw [Nat.add_zero] at hskip
      rw [hskip]
      simp only [wait_and_post_go]
    · rw [posts_append, posts_sleep_block]
      rfl
  · intro hj hpre hokj hfound hresp
    constructor
    · obtain ⟨s, hs⟩ : ∃ s, TIMEOUT - j = s + 1 :=
        ⟨TIMEOUT - j - 1, by omega⟩
      have hsplit : TIMEOUT = j + (s + 1) := by omega
      unfold wait_and_post
      rw [hsplit]
      rw [wait_and_post_go_skip polls cache rid url j (s + 1) 0 (by
        intro i hi
        simpa using hpre i hi)]
      have hgo : wait_and_post_go polls rid url (0 + j) (s + 1) =
          (Outcome.completed, [Ev.poll, Ev.post url [("text", v)]]) := by
        rw [Nat.zero_add]
        simp only [wait_and_post_go, hokj, hfound, hresp]
      rw [hgo]
    · rw [posts_append, posts_sleep_block]
      rfl

/-- C10, witness: the timeout path on an always-empty cache, and the
success path on a cache holding the response from the first poll. -/
theorem c10_post_discipline_witness :
    wait_and_post (fun _ => Fetched.ok []) "r1" "https://hooks.example/r1" =
      (Outcome.http_error 408,
        sleep_block TIMEOUT ++
          [Ev.post "https://hooks.example/r1" [("text", timeout_text)]]) ∧
    wait_and_post (fun _ => Fetched.ok [("r1", [("response", PyVal.vstr "v")])])
        "r1" "https://hooks.example/r1" =
      (Outcome.completed,
        sleep_block 0 ++ [Ev.poll, Ev.post "https://hooks.example/r1"
          [("text", PyVal.vstr "v")]]) :=
  ⟨((c10_post_discipline (fun _ => Fetched.ok []) (fun _ => []) "r1"
      "https://hooks.example/r1" 0 [] (PyVal.vstr "x")).1
      (fun _ => rfl) (fun _ => rfl)).1,
   ((c10_post_discipline
      (fun _ => Fetched.ok [("r1", [("response", PyVal.vstr "v")])])
      (fun _ => [("r1", [("response", PyVal.vstr "v")])]) "r1"
      "https://hooks.example/r1" 0 [("response", PyVal.vstr "v")]
      (PyVal.vstr "v")).2
      (by decide) (fun i hi => absurd hi (Nat.not_lt_zero i)) rfl
      (by decide) (by decide)).1⟩
